import Mathlib

/-!
Verification development for the loan-primer statistics engine
(`src/xlsx_processor.py`, `src/process_xlsx.py`).

The Python code is shallowly embedded: pandas/numpy floats become either
exact rationals (`ℚ`) or the discriminated type `PyFloat` when NaN/infinity
semantics matter; the one genuinely irrational computation (the square root
inside `calculate_volatility`) is embedded over `ℝ`.  Dates are triples with
the lexicographic order used by `datetime` comparison.  Fallible code
(`ZeroDivisionError`, `IndexError`) is embedded with `Except` / `Option`.
-/

/-! ## Python/NumPy float values

`PyFloat` models the float values that flow through the statistics code:
ordinary (exact) numbers, NaN and the two infinities.  The comparison and
division operations mirror IEEE-754 semantics as exposed by numpy scalars:
every comparison with NaN is false, and division never raises. -/

inductive PyFloat where
  | num (q : ℚ)
  | nan
  | inf
  | ninf
deriving DecidableEq

/-- `pd.isna(value)` on a scalar float: true exactly for NaN. -/
def pyIsNa : PyFloat → Bool
  | .nan => true
  | _ => false

/-- Python `value == 0` on a float: NaN and the infinities compare unequal. -/
def pyEqZero : PyFloat → Bool
  | .num q => q == 0
  | _ => false

/-- Python `value > 0` on a float: false for NaN. -/
def pyGtZero : PyFloat → Bool
  | .num q => decide (0 < q)
  | .inf => true
  | _ => false

/-- Python `value <= threshold` for a float `value` against an exact
threshold: false for NaN and `+inf`, true for `-inf`. -/
def pyLeQ : PyFloat → ℚ → Bool
  | .num a, t => decide (a ≤ t)
  | .ninf, _ => true
  | _, _ => false

/-- IEEE division on numpy float scalars (never raises; NaN propagates,
`x/0` gives a signed infinity for `x ≠ 0` and NaN for `0/0`). -/
def pyDiv : PyFloat → PyFloat → PyFloat
  | .nan, _ => .nan
  | .num _, .nan => .nan
  | .inf, .nan => .nan
  | .ninf, .nan => .nan
  | .num a, .num b =>
      if b = 0 then (if a = 0 then .nan else if 0 < a then .inf else .ninf)
      else .num (a / b)
  | .inf, .num b => if 0 ≤ b then .inf else .ninf
  | .ninf, .num b => if 0 ≤ b then .ninf else .inf
  | .num _, .inf => .num 0
  | .num _, .ninf => .num 0
  | .inf, .inf => .nan
  | .inf, .ninf => .nan
  | .ninf, .inf => .nan
  | .ninf, .ninf => .nan

/-- `np.mean` of a list of exact values: NaN on the empty list (numpy emits
"mean of empty slice" and returns NaN), the exact arithmetic mean otherwise. -/
def npMean (l : List ℚ) : PyFloat :=
  if l.isEmpty then .nan else .num (l.sum / l.length)

/-! ## Case-sensitive substring containment

`Series.str.contains('RTN', na=False)` performs a case-sensitive plain
substring match ("RTN" contains no regex metacharacters); missing values
yield `False`.  Implemented structurally over the character list. -/

/-- `charsLead p l` holds when `p` is an initial segment of `l`. -/
def charsLead : List Char → List Char → Bool
  | [], _ => true
  | _ :: _, [] => false
  | p :: ps, c :: cs => p == c && charsLead ps cs

/-- `charsOccur pat l` holds when `pat` occurs contiguously inside `l`. -/
def charsOccur (pat : List Char) : List Char → Bool
  | [] => pat.isEmpty
  | c :: cs => charsLead pat (c :: cs) || charsOccur pat cs

/-- Case-sensitive substring test, `pat` inside `s`. -/
def strOccurs (pat s : String) : Bool := charsOccur pat.toList s.toList

/-- `Series.str.contains(pat, na=False)` on one cell: a missing value is
treated as "does not contain". -/
def strOptContains (o : Option String) (pat : String) : Bool :=
  match o with
  | none => false
  | some s => strOccurs pat s

/-! ## Calendar helper (`get_month_end_date`, `get_previous_month_end_date`)

Dates are `(year, month, day)` triples compared lexicographically, exactly
as `datetime` objects compare. -/

structure Date where
  year : ℤ
  month : ℕ
  day : ℕ
deriving DecidableEq

/-- `datetime` strict comparison: lexicographic on (year, month, day). -/
def dateLt (a b : Date) : Bool :=
  decide (a.year < b.year ∨ (a.year = b.year ∧
    (a.month < b.month ∨ (a.month = b.month ∧ a.day < b.day))))

/-- `datetime` non-strict comparison: lexicographic on (year, month, day). -/
def dateLe (a b : Date) : Bool :=
  decide (a.year < b.year ∨ (a.year = b.year ∧
    (a.month < b.month ∨ (a.month = b.month ∧ a.day ≤ b.day))))

/-- Gregorian leap-year test, as used by `calendar.monthrange`. -/
def isLeapYear (y : ℤ) : Bool :=
  y % 4 == 0 && (y % 100 != 0 || y % 400 == 0)

/-- `calendar.monthrange(y, m)[1]`: number of days of month `m` of year `y`.
Only ever applied to months 1..12 (out-of-range months would make
`monthrange` raise; the value returned for them here is immaterial). -/
def daysInMonth (y : ℤ) (m : ℕ) : ℕ :=
  if m = 2 then (if isLeapYear y then 29 else 28)
  else if m = 4 ∨ m = 6 ∨ m = 9 ∨ m = 11 then 30
  else 31

/-- A date `datetime` accepts: month in 1..12, day in 1..last day of month. -/
def validDate (d : Date) : Prop :=
  1 ≤ d.month ∧ d.month ≤ 12 ∧ 1 ≤ d.day ∧ d.day ≤ daysInMonth d.year d.month

instance (d : Date) : Decidable (validDate d) := by
  unfold validDate
  infer_instance

/-- `date + relativedelta(months=k)`: shift the month by `k` (any sign),
clamping the day to the target month's length, as `relativedelta` does.
(`/` and `%` on `ℤ` are Euclidean here; for the positive divisor 12 they
agree with the floor-division semantics of the month arithmetic.) -/
def addMonthsZ (d : Date) (k : ℤ) : Date :=
  let t : ℤ := (d.month : ℤ) - 1 + k
  let y : ℤ := d.year + t / 12
  let m : ℕ := (t % 12 + 1).toNat
  ⟨y, m, min d.day (daysInMonth y m)⟩

/-- `get_month_end_date` (xlsx_processor.py lines 58-60): last calendar day
of the given date's month. -/
def get_month_end_date (d : Date) : Date :=
  ⟨d.year, d.month, daysInMonth d.year d.month⟩

/-- `get_previous_month_end_date` (lines 62-65): month end of
`date - relativedelta(months=1)`. -/
def get_previous_month_end_date (d : Date) : Date :=
  get_month_end_date (addMonthsZ d (-1))

/-! ## Ledger rows -/

/-- One SRT row.  `debit`/`credit` are `Option` because the source sheet may
leave them blank (pandas reads NaN; summation skips them).  `c1`/`c2` are the
free-text descriptor columns (`C1` holds e.g. "Cash Deposit", `C2` the
"RTN" markers); both may be missing. -/
structure Transaction where
  date : Date
  grp : String
  c1 : Option String
  c2 : Option String
  debit : Option ℚ
  credit : Option ℚ
  balance : ℚ

/-- The column argument of `calculate_monthly_sum` ('Debit' or 'Credit'). -/
inductive Col where
  | Debit
  | Credit

/-- Value of the selected column on a row. -/
def colVal (t : Transaction) : Col → Option ℚ
  | .Debit => t.debit
  | .Credit => t.credit

/-- Pandas summation treats a missing cell as contributing `0.0`. -/
def optQ (o : Option ℚ) : ℚ := o.getD 0

/-! ## Ledger queries -/

/-- `calculate_monthly_sum` (lines 67-103): sum of `column` over rows whose
`GRP` equals `group_filter` and whose date lies in the half-open window
`(prev_month_end, month_end]`; with `exclude_rtn`, rows whose `C2` contains
"RTN" are additionally excluded.  The trailing
`result if not pd.isna(result) else 0.0` of the source is the identity here
because a pandas sum with skipped NaNs is never NaN. -/
def calculate_monthly_sum (srt : List Transaction) (base_date : Date)
    (group_filter : String) (column : Col) (exclude_rtn : Bool) : ℚ :=
  let month_end := get_month_end_date base_date
  let prev_month_end := get_previous_month_end_date base_date
  let mask : Transaction → Bool := fun t =>
    t.grp == group_filter && dateLe t.date month_end && dateLt prev_month_end t.date
  let mask2 : Transaction → Bool :=
    if exclude_rtn then fun t => mask t && !(strOptContains t.c2 "RTN") else mask
  ((srt.filter mask2).map (fun t => optQ (colVal t column))).sum

/-- `calculate_eod_balance` (lines 105-120): `Balance` of the last row (in
input order) dated on or before the month end of `base_date`; `0.0` when no
row qualifies. -/
def calculate_eod_balance (srt : List Transaction) (base_date : Date) : ℚ :=
  let month_end := get_month_end_date base_date
  let month_data := srt.filter (fun t => dateLe t.date month_end)
  match month_data.getLast? with
  | some t => t.balance
  | none => 0

/-- A condition value of `calculate_monthly_count`.  The Python encodes the
three forms as raw strings sniffed by their first characters (`'>'` numeric
threshold, `'<>'` substring exclusion, anything else equality); they are
embedded as a tagged union carrying the decoded payload. -/
inductive CondVal where
  | eqStr (s : String)
  | gtNum (q : ℚ)
  | exclSub (s : String)

/-- The columns of the SRT frame; a condition naming any other column is
silently ignored (`if col in self.srt_data.columns`). -/
def knownCols : List String := ["Date", "GRP", "C1", "C2", "Debit", "Credit", "Balance"]

/-- String-valued column lookup (non-string columns compare unequal to any
string in pandas, modelled by `none`). -/
def colStrVal (t : Transaction) (col : String) : Option String :=
  if col = "GRP" then some t.grp
  else if col = "C1" then t.c1
  else if col = "C2" then t.c2
  else none

/-- Numeric-valued column lookup. -/
def colNumVal (t : Transaction) (col : String) : Option ℚ :=
  if col = "Debit" then t.debit
  else if col = "Credit" then t.credit
  else if col = "Balance" then some t.balance
  else none

/-- One condition of `calculate_monthly_count` applied to one row.
Comparisons against a missing value are false (pandas `NaN == v`,
`NaN > v` are false; `str.contains(..., na=False)` is false). -/
def condOk (t : Transaction) (col : String) (v : CondVal) : Bool :=
  if col ∈ knownCols then
    match v with
    | .gtNum q =>
        match colNumVal t col with
        | some x => decide (q < x)
        | none => false
    | .exclSub s => !(strOptContains (colStrVal t col) s)
    | .eqStr s => colStrVal t col == some s
  else true

/-- `calculate_monthly_count` (lines 122-164): count of rows in the month
window, optionally restricted to a group and to extra column conditions. -/
def calculate_monthly_count (srt : List Transaction) (base_date : Date)
    (group_filter : Option String) (condition_filters : List (String × CondVal)) : ℕ :=
  let month_end := get_month_end_date base_date
  let prev_month_end := get_previous_month_end_date base_date
  let mask0 : Transaction → Bool := fun t =>
    dateLe t.date month_end && dateLt prev_month_end t.date
  let mask1 : Transaction → Bool :=
    match group_filter with
    | some g => fun t => mask0 t && t.grp == g
    | none => mask0
  let maskF : Transaction → Bool :=
    condition_filters.foldl (fun m c => fun t => m t && condOk t c.1 c.2) mask1
  (srt.filter maskF).length

/-! ## Derived metrics -/

/-- `calculate_volatility` (lines 166-177): coefficient of variation of the
strictly positive values, using the sample standard deviation
(`np.std(values, ddof=1)`); `0.0` with fewer than two positive values or a
zero mean.  The mean and the variance radicand are exact rationals; only the
final square root lives in `ℝ`. -/
noncomputable def calculate_volatility (values : List ℚ) : ℝ :=
  if values.length < 2 then 0
  else
    let pos := values.filter (fun v => decide (0 < v))
    if pos.length < 2 then 0
    else
      let mean_val : ℚ := pos.sum / pos.length
      if mean_val = 0 then 0
      else
        let variance : ℚ := (pos.map (fun v => (v - mean_val) ^ 2)).sum / ((pos.length : ℚ) - 1)
        Real.sqrt (variance : ℝ) / (mean_val : ℝ)

/-- Spec-side arithmetic mean over `ℝ` (for comparing `calculate_volatility`
against the spec's "sample standard deviation divided by the mean"). -/
noncomputable def listMeanR (l : List ℚ) : ℝ :=
  (l.map (fun v => ((v : ℚ) : ℝ))).sum / l.length

/-- Spec-side sample standard deviation (divisor `n - 1`) over `ℝ`. -/
noncomputable def sampleStdR (l : List ℚ) : ℝ :=
  Real.sqrt ((l.map (fun v => (((v : ℚ) : ℝ) - listMeanR l) ^ 2)).sum / ((l.length : ℝ) - 1))

/-- `calculate_trend_ratio` (lines 179-195): ratio of the mean of the
positive values of the second half to that of the first half.  `np.mean` of
an empty slice is NaN, so the arithmetic is carried out on `PyFloat`. -/
def calculate_trend_ratio (values : List ℚ) : PyFloat :=
  if values.length < 3 then .num 1
  else
    let mid_point := values.length / 2
    let recent := values.drop mid_point
    let older := values.take mid_point
    let recent_avg := npMean (recent.filter (fun v => decide (0 < v)))
    let older_avg := npMean (older.filter (fun v => decide (0 < v)))
    if pyEqZero older_avg then (if pyEqZero recent_avg then .num 1 else .inf)
    else pyDiv recent_avg older_avg

/-- The scanning loop of `calculate_score`: first rule whose threshold the
value does not exceed. -/
def scoreLoop (value : PyFloat) : List (ℚ × ℤ) → Option ℤ
  | [] => none
  | (threshold, score) :: rest =>
      if pyLeQ value threshold then some score else scoreLoop value rest

/-- `calculate_score` (lines 197-215).  The final fallback
`scoring_rules[-1][1]` raises `IndexError` on an empty rule list, embedded
as `none`. -/
def calculate_score (value : PyFloat) (scoring_rules : List (ℚ × ℤ)) : Option ℤ :=
  if pyIsNa value || pyEqZero value then some 0
  else
    match scoreLoop value scoring_rules with
    | some s => some s
    | none => (scoring_rules.getLast?).map (fun r => r.2)

/-! ## Per-month aggregates (`generate_stat_data`, lines 243-275) -/

/-- The `monthly_data[month_key]` dictionary of one month. -/
structure MonthlyAgg where
  eod_balance : ℚ
  bt_credit : ℚ
  bt_debit : ℚ
  expense : ℚ
  zih_credit : ℚ
  zih_debit : ℚ
  dbt_credit : ℚ
  dbt_debit : ℚ
  ecs_debit : ℚ
  ecs_pvt_debit : ℚ
  ecs_credit : ℚ
  ecs_pvt_credit : ℚ
  bt_count : ℕ
  cash_count : ℕ

/-- The body of the "Calculate all monthly values first" loop
(lines 243-275), for one month anchor. -/
def computeMonthly (srt : List Transaction) (month_date : Date) : MonthlyAgg :=
  { eod_balance := calculate_eod_balance srt month_date
    bt_credit := calculate_monthly_sum srt month_date "BT" .Credit false
    bt_debit := calculate_monthly_sum srt month_date "BT" .Debit false
    expense := calculate_monthly_sum srt month_date "EXP" .Debit false
    zih_credit := calculate_monthly_sum srt month_date "ZIH" .Credit false
    zih_debit := calculate_monthly_sum srt month_date "ZIH" .Debit false
    dbt_credit := calculate_monthly_sum srt month_date "DBT" .Credit false
    dbt_debit := calculate_monthly_sum srt month_date "DBT" .Debit false
    ecs_debit := calculate_monthly_sum srt month_date "ecs" .Debit true
    ecs_pvt_debit := calculate_monthly_sum srt month_date "ecs pvt" .Debit true
    ecs_credit := calculate_monthly_sum srt month_date "ecs" .Credit false
    ecs_pvt_credit := calculate_monthly_sum srt month_date "ecs pvt" .Credit false
    bt_count := calculate_monthly_count srt month_date (some "BT") []
    cash_count :=
      calculate_monthly_count srt month_date (some "BT") [("C1", .eqStr "Cash Deposit")] +
        calculate_monthly_count srt month_date (some "BT") [("C1", .eqStr "Cash Withdrawal")] }

/-! ## Report grid assembly (`generate_stat_data`, lines 277-477)

A grid cell.  Cells that the Python renders through an f-string
(`f'{x:.2f}'` and friends) are embedded as constructors carrying the
unrendered value: no claim inspects the decimal rendering, and the two
volatility cells hold an irrational real. -/

inductive Cell where
  | str (s : String)
  | num (q : ℚ)
  | int (n : ℤ)
  | nan
  | fmt2 (v : PyFloat)
  | fmt0 (v : PyFloat)
  | fmtInt00 (n : ℤ)
  | fmtReal (r : ℝ)

/-- `strftime('%Y-%m-%d')` month-end label (digit padding of small
components as in the source; the label's text is never inspected). -/
def pad2 (n : ℕ) : String := if n < 10 then "0" ++ toString n else toString n

/-- Render a date as `YYYY-MM-DD`. -/
def formatDate (d : Date) : String :=
  toString d.year ++ "-" ++ pad2 d.month ++ "-" ++ pad2 d.day

/-- `monthly_labels` (lines 288-313): header placeholder plus the 23 row
labels of the monthly zone. -/
def monthlyLabels : List String :=
  ["",
   "EOD monthly balance",
   "Credit (BT)",
   "Debit (BT)",
   "Expense",
   "Top 2 Credit (BT)",
   "Top 2 Debit (BT)",
   "ZIH Cr",
   "ZIH Dr",
   "DBT (Cr)",
   "DBT (Dr)",
   "Monthly Loan payments Bank",
   "Monthly Loan payments Pvt",
   "Loan received Bank",
   "Loan received Pvt",
   "Net ZIH Cr (ZIH Cr - ZIH Dr)",
   "Cash Flow (Credit - Debit - Expense)",
   "Net ECS Cr (ECS Cr - ECS Dr)",
   "Net ECS Pvt Cr (ECS Pvt Cr - ECS Pvt Dr)",
   "Net DBT",
   "Net flow",
   "Loan rollover ratio",
   "Count of Cash Trn",
   "Count of Transactions"]

/-- The `if i == 1 ... elif ... else` value dispatch of the monthly loop
(lines 327-375), for row `i` and one month's aggregates. -/
def monthlyValue (data : MonthlyAgg) (i : ℕ) : Cell :=
  if i = 1 then .num data.eod_balance
  else if i = 2 then .num data.bt_credit
  else if i = 3 then .num data.bt_debit
  else if i = 4 then .num data.expense
  else if i = 5 ∨ i = 6 then .nan
  else if i = 7 then .num data.zih_credit
  else if i = 8 then .num data.zih_debit
  else if i = 9 then .num data.dbt_credit
  else if i = 10 then .num data.dbt_debit
  else if i = 11 then .num data.ecs_debit
  else if i = 12 then .num data.ecs_pvt_debit
  else if i = 13 then .num data.ecs_credit
  else if i = 14 then .num data.ecs_pvt_credit
  else if i = 15 then .num (data.zih_credit - data.zih_debit)
  else if i = 16 then .num (data.bt_credit - data.bt_debit - data.expense)
  else if i = 17 then .num (data.ecs_credit - data.ecs_debit)
  else if i = 18 then .num (data.ecs_pvt_credit - data.ecs_pvt_debit)
  else if i = 19 then .num (data.dbt_credit - data.dbt_debit)
  else if i = 20 then .num (data.bt_credit - data.bt_debit - data.expense +
    data.zih_credit - data.zih_debit + data.ecs_credit - data.ecs_debit +
    data.ecs_pvt_credit - data.ecs_pvt_debit)
  else if i = 21 then .nan
  else if i = 22 then .int data.cash_count
  else if i = 23 then .int data.bt_count
  else .int 0

/-- `header_data` (line 316): empty label cell, one formatted month-end
anchor per month, four trailing empty cells. -/
def headerRow (dateCols : List Date) : List Cell :=
  Cell.str "" :: (dateCols.map (fun d => Cell.str (formatDate d)) ++ List.replicate 4 (Cell.str ""))

/-- One row of the monthly zone (`row = [label]; ...; row.extend(['','','',''])`,
lines 320-381), for `k` ranging over 0..22 (the source's `i` is `k+1`). -/
def monthlyRow (monthly : List MonthlyAgg) (k : ℕ) : List Cell :=
  Cell.str (monthlyLabels.getD (k + 1) "") ::
    (monthly.map (fun data => monthlyValue data (k + 1)) ++ List.replicate 4 (Cell.str ""))

/-- `monthly_values`: the 23 monthly-zone rows. -/
def monthlyRowsAll (monthly : List MonthlyAgg) : List (List Cell) :=
  (List.range 23).map (monthlyRow monthly)

/-- `summary_data` (lines 391-399): seven literal rows of eleven cells.
`annCr`/`annDb` are the already-divided annualised projections
`sum * 12 / num_months` (the division is performed by the caller because it
can raise). -/
def summaryRows (num_months : ℤ) (btCrSum btDbSum : ℚ) (avgEod : PyFloat)
    (annCr annDb : ℚ) : List (List Cell) :=
  [[.str "Available Months", .int num_months, .str "", .str "", .str "", .str "", .str "",
      .fmtInt00 num_months, .str "", .str "", .str ""],
   [.str "Average EOD monthly balance", .str "", .str "", .str "", .str "", .str "", .str "",
      .fmt2 avgEod, .str "", .str "", .str ""],
   [.str "OD Limit", .str "", .str "", .str "", .str "", .str "", .str "",
      .str "-", .str "", .str "", .str ""],
   [.str "Available Balance / Limit", .str "", .str "", .str "", .str "", .str "", .str "",
      .fmt2 avgEod, .str "", .str "", .str ""],
   [.str "SALES/PURCHASES", .str "", .str "", .str "", .str "", .str "", .str "",
      .str "", .str "", .str "", .str ""],
   [.str "Credit (BT)", .num btCrSum, .str "", .str "", .str "", .str "", .str "",
      .fmt0 (.num btCrSum), .fmt0 (.num annCr), .str "", .str ""],
   [.str "Debit (BT)", .num btDbSum, .str "", .str "", .str "", .str "", .str "",
      .fmt0 (.num btDbSum), .fmt0 (.num annDb), .str "", .str ""]]

/-- `scoring_data` (lines 407-444): 36 literal rows; all have three cells
except the first section header, which has four.  The hard-coded placeholder
constants are kept verbatim as string cells. -/
noncomputable def scoringData (bt_credits bt_debits : List ℚ) (avgEod : PyFloat) :
    List (List Cell) :=
  [[.str "SALES/PURCHASES", .str "", .str "", .str ""],
   [.str "OD vs Credit (BT)", .str "-", .str "-"],
   [.str "OD Consumption", .str "", .str ""],
   [.str "Dy. BT. Cr/Avg .Dy.Bal",
      .fmt2 (if pyGtZero (npMean bt_credits) then pyDiv avgEod (npMean bt_credits) else .num 0),
      .str "2.00"],
   [.str "Credit (BT) Volatality", .fmtReal (calculate_volatility bt_credits), .str ""],
   [.str "Debit (BT) Volatality", .fmtReal (calculate_volatility bt_debits), .str ""],
   [.str "In house Ratio", .str "0.27", .str ""],
   [.str "ITA (Cr) Ratio", .str "", .str "2.00"],
   [.str "Sales trend", .fmt2 (calculate_trend_ratio bt_credits), .str "5.00"],
   [.str "Purchase trend", .fmt2 (calculate_trend_ratio bt_debits), .str "2.00"],
   [.str "Cash Trn Ratio (Deposit)", .str "", .str ""],
   [.str "Cash Trn Ratio (Withdrawal)", .str "", .str ""],
   [.str "Cheque Trn ratio (BT/ECS)", .str "0.20", .str "4.00"],
   [.str "Cheque Rtn count (BT/ECS)", .str "", .str ""],
   [.str "Cheque Dishonor/Penalty ratio (BT/ECS)", .str "", .str ""],
   [.str "LOANS", .str "", .str ""],
   [.str "EMI Pvt Trend", .str "1.00", .str ""],
   [.str "EMI to Inflow (BT) ratio - Pvt", .str "0.14", .str "4.00"],
   [.str "EMI to Inflow (BT) ratio - Bank", .str "0.01", .str "5.00"],
   [.str "Liquidity stress indicator (LSI)", .str "11.57", .str "-5.00"],
   [.str "Loan Trend Bank", .str "1.00", .str ""],
   [.str "Loan Trend Pvt", .str "1.00", .str ""],
   [.str "Debt Dependence Ratio (DDR Bank)", .str "0.03", .str "5.00"],
   [.str "Debt Dependence Ratio Pvt (DDR Pvt)", .str "0.34", .str "2.00"],
   [.str "EMI pvt vs Cheque pmt", .str "", .str "5.00"],
   [.str "ECS vs ECS pmt", .str "0.19", .str ""],
   [.str "ECS return count", .str "", .str ""],
   [.str "Cheque Rtn count (ECS Pvt)", .str "", .str ""],
   [.str "Cheque Dishonor/Penalty ratio (ECS PVT)", .str "", .str ""],
   [.str "Loan Roll Over Ratio", .str "3.55", .str ""],
   [.str "OTHERS", .str "", .str ""],
   [.str "GST Volatality", .str "", .str ""],
   [.str "Utility Volatality", .str "", .str ""],
   [.str "Transaction volatality", .str "0.19", .str ""],
   [.str "Max. Loan repayment to Net inflow", .str "", .str ""],
   [.str "Top 2 Credit ratio", .str "#NUM!", .str ""]]

/-- `row + [''] * (len(header_data) - len(row))` (line 457): right-pad a
summary row to the header width (a no-op when the row is already as wide,
since Python multiplies a list by a non-positive count to `[]`). -/
def padRow (w : ℕ) (r : List Cell) : List Cell :=
  r ++ List.replicate (w - r.length) (Cell.str "")

/-- The scoring-row alignment (lines 464-471): 8 leading blanks, the metric
name, 7 blanks, then value and score columns. -/
def padScoringRow (row : List Cell) : List Cell :=
  if 3 ≤ row.length then
    List.replicate 8 (Cell.str "") ++ [row.getD 0 (Cell.str "")] ++
      List.replicate 7 (Cell.str "") ++ [row.getD 1 (Cell.str ""), row.getD 2 (Cell.str "")]
  else if 2 ≤ row.length then
    List.replicate 8 (Cell.str "") ++ [row.getD 0 (Cell.str "")] ++
      List.replicate 7 (Cell.str "") ++ [row.getD 1 (Cell.str ""), Cell.str ""]
  else
    List.replicate 8 (Cell.str "") ++ [row.getD 0 (Cell.str "")] ++
      List.replicate 8 (Cell.str "")

/-- `all_data` (lines 447-471): header, 23 monthly rows, 7 padded summary
rows, one spacer row of header width, 36 aligned scoring rows.  (The
source also builds an `expenses` list it never uses; it is omitted.) -/
noncomputable def buildGrid (num_months : ℤ) (dateCols : List Date)
    (monthly : List MonthlyAgg) (annCr annDb : ℚ) : List (List Cell) :=
  let header := headerRow dateCols
  let bt_credits := monthly.map (fun m => m.bt_credit)
  let bt_debits := monthly.map (fun m => m.bt_debit)
  let avg_eod := npMean (monthly.map (fun m => m.eod_balance))
  header ::
    (monthlyRowsAll monthly ++
      (summaryRows num_months bt_credits.sum bt_debits.sum avg_eod annCr annDb).map
        (padRow header.length) ++
      [List.replicate header.length (Cell.str "")] ++
      (scoringData bt_credits bt_debits avg_eod).map padScoringRow)

/-- Python `range(n)`: the integers `0, 1, ..., n-1`, empty for `n <= 0`. -/
def pyRange (n : ℤ) : List ℤ := (List.range n.toNat).map Int.ofNat

/-- Python integer true-division `x * 12 / n`: raises `ZeroDivisionError`
when `n == 0`. -/
def pyDivByInt (x : ℚ) (n : ℤ) : Except String ℚ :=
  if n = 0 then .error "ZeroDivisionError: division by zero" else .ok (x / (n : ℚ))

/-- `generate_stat_data` (lines 217-477).  The two annualised-projection
divisions (`sum * 12 / num_months`, line 397-398) are the only fallible
steps; the first one to raise aborts the run, exactly as the Python
exception would. -/
noncomputable def generate_stat_data (srt : List Transaction) (start_date : Date)
    (num_months : ℤ) : Except String (List (List Cell)) :=
  let dateCols := (pyRange num_months).map (fun i => addMonthsZ start_date i)
  let monthly := dateCols.map (computeMonthly srt)
  let bt_credits := monthly.map (fun m => m.bt_credit)
  let bt_debits := monthly.map (fun m => m.bt_debit)
  match pyDivByInt (bt_credits.sum * 12) num_months,
      pyDivByInt (bt_debits.sum * 12) num_months with
  | .error e, _ => .error e
  | .ok _, .error e => .error e
  | .ok annCr, .ok annDb => .ok (buildGrid num_months dateCols monthly annCr annDb)

/-- The column count of every row of a grid. -/
def rowLengths (g : List (List Cell)) : List ℕ := g.map List.length

/-- Row lengths through the `Except` wrapper. -/
def gridRowLengths (e : Except String (List (List Cell))) : Except String (List ℕ) :=
  e.map rowLengths

/-! ## Helper lemmas -/

/-- The scanning loop returns the first rule the value passes, i.e. the
head of `List.find?` over the rules. -/
theorem scoreLoop_eq_find (v : PyFloat) (l : List (ℚ × ℤ)) :
    scoreLoop v l = (l.find? (fun r => pyLeQ v r.1)).map (fun r => r.2) := by
  induction l with
  | nil => rfl
  | cons a t ih =>
    obtain ⟨th, sc⟩ := a
    rw [scoreLoop]
    cases h : pyLeQ v th with
    | true => simp [List.find?_cons, h]
    | false => simp [List.find?_cons, h, ih]

/-- `filter` preserves input order, so the last kept element is the first
match when scanning the reversed list. -/
theorem filter_getLast_eq_reverse_find (p : α → Bool) (l : List α) :
    (l.filter p).getLast? = l.reverse.find? p := by
  induction l using List.reverseRecOn with
  | nil => rfl
  | append_singleton t a ih =>
    rw [List.filter_append, List.reverse_append]
    cases h : p a <;>
      simp [h, ih, List.getLast?_concat, List.find?_cons]

/-! ## Claims -/

/-- C3: `calculate_trend_ratio` evaluated at the spec's worked examples.
The short-input and odd-split behaviour agree with the claim
(`trendRatio([1,1]) = 1.0`, `trendRatio([1,1,1,3,3]) = 7/3`), but
`trendRatio([0,0,0])` is NaN, not the claimed `1.0`: both halves contain no
strictly positive value, `np.mean([])` is NaN rather than `0`, so the
`older_avg == 0` fallback branch never fires and NaN flows through the
division. -/
theorem c3_trend_ratio_zero_input :
    calculate_trend_ratio [0, 0, 0] = PyFloat.nan
  ∧ calculate_trend_ratio [1, 1] = PyFloat.num 1
  ∧ calculate_trend_ratio [1, 1, 1, 3, 3] = PyFloat.num (7 / 3) := by
  refine ⟨?_, ?_, ?_⟩ <;> with_unfolding_all rfl

/-- C4: for a nonempty rule list, `calculate_score` returns `0` on zero/NaN
values and otherwise the score of the first rule (scanning in order) whose
threshold is at least the value, falling back to the last rule's score. -/
theorem c4_score_first_match (v : PyFloat) (rules : List (ℚ × ℤ)) (h : rules ≠ []) :
    calculate_score v rules = some (
      if pyIsNa v || pyEqZero v then 0
      else
        match rules.find? (fun r => pyLeQ v r.1) with
        | some r => r.2
        | none => (rules.getLast h).2) := by
  rw [calculate_score]
  cases hz : (pyIsNa v || pyEqZero v) with
  | true => simp [hz]
  | false =>
    rw [scoreLoop_eq_find]
    cases hf : rules.find? (fun r => pyLeQ v r.1) with
    | some r => simp [hz, hf]
    | none => simp [hz, hf, List.getLast?_eq_getLast rules h]

/-- C4 witness: the spec's worked examples, `score(150) = 2` (first rule
with threshold `>= 150` is `(200, 2)`) and `score(50) = 1`. -/
theorem c4_score_first_match_witness :
    calculate_score (.num 150) [(100, 1), (200, 2)] = some 2
  ∧ calculate_score (.num 50) [(100, 1), (200, 2)] = some 1 :=
  ⟨(c4_score_first_match (.num 150) [(100, 1), (200, 2)] (by simp)).trans
      (by with_unfolding_all rfl),
   (c4_score_first_match (.num 50) [(100, 1), (200, 2)] (by simp)).trans
      (by with_unfolding_all rfl)⟩

/-- C9: on an empty rule list, any value that is neither zero nor NaN
reaches the `scoring_rules[-1]` fallback, which indexes into the empty
list: `calculate_score` is partial there (`none` embeds the
`IndexError`). -/
theorem c9_score_empty_rules (v : PyFloat) (h1 : pyIsNa v = false) (h2 : pyEqZero v = false) :
    calculate_score v [] = none := by
  simp [calculate_score, h1, h2, scoreLoop]

/-- C9 witness: `score(5, [])` raises. -/
theorem c9_score_empty_rules_witness : calculate_score (.num 5) [] = none :=
  c9_score_empty_rules (.num 5) rfl (by with_unfolding_all rfl)

/-- C5: the month window is genuinely half-open `(prevMonthEnd, monthEnd]`:
the previous month end strictly precedes the month end, a transaction dated
exactly on the month end is counted by the monthly sum and count queries,
and one dated exactly on the previous month end is not. -/
theorem c5_month_window (anchor : Date) (hv : validDate anchor) (t : Transaction) (g : String) :
    dateLt (get_previous_month_end_date anchor) (get_month_end_date anchor) = true
  ∧ (t.date = get_month_end_date anchor → t.grp = g →
      calculate_monthly_sum [t] anchor g Col.Debit false = optQ t.debit
    ∧ calculate_monthly_count [t] anchor none [] = 1)
  ∧ (t.date = get_previous_month_end_date anchor →
      calculate_monthly_sum [t] anchor g Col.Debit false = 0
    ∧ calculate_monthly_count [t] anchor none [] = 0) := by
  have hlt : dateLt (get_previous_month_end_date anchor) (get_month_end_date anchor) = true := by
    obtain ⟨h1, h2, h3, h4⟩ := hv
    simp only [get_previous_month_end_date, get_month_end_date, addMonthsZ, dateLt,
      decide_eq_true_eq]
    omega
  have hle : ∀ d : Date, dateLe d d = true := fun d => by simp [dateLe]
  have hirr : ∀ d : Date, dateLt d d = false := fun d => by simp [dateLt]
  refine ⟨hlt, fun hdate hgrp => ⟨?_, ?_⟩, fun hdate => ⟨?_, ?_⟩⟩
  · simp [calculate_monthly_sum, hdate, hgrp, hle, hlt, colVal, List.filter_cons]
  · simp [calculate_monthly_count, hdate, hle, hlt, List.filter_cons]
  · simp [calculate_monthly_sum, hdate, hirr, List.filter_cons]
  · simp [calculate_monthly_count, hdate, hirr, List.filter_cons]

/-- C5 witness: anchor 2025-03-15; a debit of 5 dated 2025-03-31 (the month
end) is summed, one dated 2025-02-28 (the previous month end) is not. -/
theorem c5_month_window_witness :
    dateLt (get_previous_month_end_date ⟨2025, 3, 15⟩) (get_month_end_date ⟨2025, 3, 15⟩) = true
  ∧ calculate_monthly_sum [⟨⟨2025, 3, 31⟩, "BT", none, none, some 5, none, 0⟩]
      ⟨2025, 3, 15⟩ "BT" Col.Debit false = 5
  ∧ calculate_monthly_sum [⟨⟨2025, 2, 28⟩, "BT", none, none, some 5, none, 0⟩]
      ⟨2025, 3, 15⟩ "BT" Col.Debit false = 0 :=
  ⟨(c5_month_window ⟨2025, 3, 15⟩ (by decide)
      ⟨⟨2025, 3, 31⟩, "BT", none, none, some 5, none, 0⟩ "BT").1,
   ((c5_month_window ⟨2025, 3, 15⟩ (by decide)
      ⟨⟨2025, 3, 31⟩, "BT", none, none, some 5, none, 0⟩ "BT").2.1 (by rfl) rfl).1,
   ((c5_month_window ⟨2025, 3, 15⟩ (by decide)
      ⟨⟨2025, 2, 28⟩, "BT", none, none, some 5, none, 0⟩ "BT").2.2 (by rfl)).1⟩

/-- C6: a single in-window "ecs" debit of 50 whose `C2` subcode contains
"RTN" yields an `ecs_debit` aggregate of 0 (the row is excluded), while the
same filtered sum without the RTN exclusion yields 50; the credit aggregate
of the same group applies no RTN exclusion. -/
theorem c6_ecs_rtn_exclusion (anchor : Date) (t : Transaction)
    (hg : t.grp = "ecs")
    (hw1 : dateLe t.date (get_month_end_date anchor) = true)
    (hw2 : dateLt (get_previous_month_end_date anchor) t.date = true)
    (hc2 : strOptContains t.c2 "RTN" = true)
    (hd : t.debit = some 50) :
    (computeMonthly [t] anchor).ecs_debit = 0
  ∧ calculate_monthly_sum [t] anchor "ecs" Col.Debit false = 50
  ∧ (computeMonthly [t] anchor).ecs_credit = optQ t.credit := by
  refine ⟨?_, ?_, ?_⟩
  · simp [computeMonthly, calculate_monthly_sum, hg, hw1, hw2, hc2, List.filter_cons]
  · simp [calculate_monthly_sum, hg, hw1, hw2, hd, List.filter_cons, colVal, optQ]
  · simp [computeMonthly, calculate_monthly_sum, hg, hw1, hw2, List.filter_cons, colVal]

/-- C6 witness: the concrete "Cheque RTN" scenario of the spec. -/
theorem c6_ecs_rtn_exclusion_witness :
    (computeMonthly [⟨⟨2025, 3, 10⟩, "ecs", none, some "Cheque RTN", some 50, none, 0⟩]
      ⟨2025, 3, 15⟩).ecs_debit = 0
  ∧ calculate_monthly_sum [⟨⟨2025, 3, 10⟩, "ecs", none, some "Cheque RTN", some 50, none, 0⟩]
      ⟨2025, 3, 15⟩ "ecs" Col.Debit false = 50
  ∧ (computeMonthly [⟨⟨2025, 3, 10⟩, "ecs", none, some "Cheque RTN", some 50, some 50, 0⟩]
      ⟨2025, 3, 15⟩).ecs_credit = 50 :=
  ⟨(c6_ecs_rtn_exclusion ⟨2025, 3, 15⟩
      ⟨⟨2025, 3, 10⟩, "ecs", none, some "Cheque RTN", some 50, none, 0⟩
      rfl (by rfl) (by rfl) (by rfl) rfl).1,
   (c6_ecs_rtn_exclusion ⟨2025, 3, 15⟩
      ⟨⟨2025, 3, 10⟩, "ecs", none, some "Cheque RTN", some 50, none, 0⟩
      rfl (by rfl) (by rfl) (by rfl) rfl).2.1,
   (c6_ecs_rtn_exclusion ⟨2025, 3, 15⟩
      ⟨⟨2025, 3, 10⟩, "ecs", none, some "Cheque RTN", some 50, some 50, 0⟩
      rfl (by rfl) (by rfl) (by rfl) rfl).2.2⟩

/-- C10: in the RTN-excluded debit sum, a row with a missing `C2` subcode is
kept (`na=False` in `str.contains`), a row whose subcode lacks "RTN" is
kept, and the substring match is case-sensitive ("Cheque rtn" does not
match, "Cheque RTN" does). -/
theorem c10_rtn_missing_and_case (anchor : Date) (t : Transaction)
    (hg : t.grp = "ecs")
    (hw1 : dateLe t.date (get_month_end_date anchor) = true)
    (hw2 : dateLt (get_previous_month_end_date anchor) t.date = true) :
    (t.c2 = none → calculate_monthly_sum [t] anchor "ecs" Col.Debit true = optQ t.debit)
  ∧ (∀ s : String, t.c2 = some s → strOccurs "RTN" s = false →
      calculate_monthly_sum [t] anchor "ecs" Col.Debit true = optQ t.debit)
  ∧ strOccurs "RTN" "Cheque rtn" = false
  ∧ strOccurs "RTN" "Cheque RTN" = true := by
  refine ⟨fun hc2 => ?_, fun s hc2 hno => ?_, by rfl, by rfl⟩
  · simp [calculate_monthly_sum, hg, hw1, hw2, hc2, strOptContains, colVal, List.filter_cons]
  · simp [calculate_monthly_sum, hg, hw1, hw2, hc2, hno, strOptContains, colVal,
      List.filter_cons]

/-- C10 witness: a missing-subcode debit of 50 is included in the
RTN-excluded sum, and so is one tagged "Cheque rtn" (lowercase). -/
theorem c10_rtn_missing_and_case_witness :
    calculate_monthly_sum [⟨⟨2025, 3, 10⟩, "ecs", none, none, some 50, none, 0⟩]
      ⟨2025, 3, 15⟩ "ecs" Col.Debit true = 50
  ∧ calculate_monthly_sum [⟨⟨2025, 3, 10⟩, "ecs", none, some "Cheque rtn", some 50, none, 0⟩]
      ⟨2025, 3, 15⟩ "ecs" Col.Debit true = 50 :=
  ⟨(c10_rtn_missing_and_case ⟨2025, 3, 15⟩
      ⟨⟨2025, 3, 10⟩, "ecs", none, none, some 50, none, 0⟩ rfl (by rfl) (by rfl)).1 rfl,
   ((c10_rtn_missing_and_case ⟨2025, 3, 15⟩
      ⟨⟨2025, 3, 10⟩, "ecs", none, some "Cheque rtn", some 50, none, 0⟩ rfl (by rfl)
      (by rfl)).2.1 "Cheque rtn" rfl (by rfl))⟩

/-- C7 (amended): the end-of-month balance query returns the balance of the
last transaction in original input order whose date is on or before the
*month end of* the query date (`0.0` when none qualifies) — the cutoff is
`get_month_end_date d`, not `d` itself.  Input order, not date order, is
the tie-break: the second conjunct shows a ledger whose later row has the
earlier date, and the later row's balance wins. -/
theorem c7_eod_last_in_input_order :
    (∀ (srt : List Transaction) (d : Date),
      calculate_eod_balance srt d =
        match srt.reverse.find? (fun t => dateLe t.date (get_month_end_date d)) with
        | some t => t.balance
        | none => 0)
  ∧ calculate_eod_balance [⟨⟨2025, 3, 10⟩, "BT", none, none, none, none, 100⟩,
      ⟨⟨2025, 3, 5⟩, "BT", none, none, none, none, 200⟩] ⟨2025, 3, 15⟩ = 200 := by
  refine ⟨fun srt d => ?_, by rfl⟩
  rw [calculate_eod_balance, ← filter_getLast_eq_reverse_find]

/-- C7 counterexample to the claim as stated: with query date 2025-03-15,
no transaction of the ledger has date `<= d` (the only row is dated
2025-03-20), so the claim's description demands `0.0`; the code returns
that row's balance `7`, because its actual cutoff is the month end
2025-03-31. -/
theorem c7_counterexample :
    calculate_eod_balance [⟨⟨2025, 3, 20⟩, "BT", none, none, none, none, 7⟩] ⟨2025, 3, 15⟩ = 7
  ∧ ([⟨⟨2025, 3, 20⟩, "BT", none, none, none, none, 7⟩] : List Transaction).filter
      (fun t => dateLe t.date ⟨2025, 3, 15⟩) = []
  ∧ (7 : ℚ) ≠ 0 :=
  ⟨by rfl, by rfl, by norm_num⟩

/-- Casting the exact mean to `ℝ` gives the spec-side mean. -/
theorem listMeanR_eq_cast (l : List ℚ) : listMeanR l = ((l.sum / l.length : ℚ) : ℝ) := by
  rw [listMeanR, Rat.cast_div, Rat.cast_list_sum]
  norm_num

/-- Casting the exact variance radicand to `ℝ` gives the spec-side sample
standard deviation. -/
theorem sampleStdR_eq_cast (l : List ℚ) :
    sampleStdR l =
      Real.sqrt (((l.map (fun v => (v - l.sum / l.length) ^ 2)).sum /
        ((l.length : ℚ) - 1) : ℚ) : ℝ) := by
  have hel : ∀ v : ℚ, (((v - l.sum / l.length) ^ 2 : ℚ) : ℝ) = ((v : ℝ) - listMeanR l) ^ 2 := by
    intro v
    rw [listMeanR_eq_cast]
    push_cast
    ring
  rw [sampleStdR]
  congr 1
  rw [Rat.cast_div, Rat.cast_list_sum, List.map_map]
  push_cast
  congr 1
  refine congrArg List.sum ?_
  refine List.map_congr_left ?_
  intro v _
  exact (hel v).symm

/-- With fewer than two strictly positive values the volatility is `0.0`. -/
theorem calculate_volatility_of_few_pos (values : List ℚ)
    (h : (values.filter (fun v => decide (0 < v))).length < 2) :
    calculate_volatility values = 0 := by
  by_cases hv : values.length < 2 <;> simp [calculate_volatility, hv, h]

/-- With at least two strictly positive values the volatility is the sample
standard deviation of the positive values divided by their mean. -/
theorem calculate_volatility_eq_std_div_mean (values : List ℚ)
    (h2 : 2 ≤ (values.filter (fun v => decide (0 < v))).length) :
    calculate_volatility values =
      sampleStdR (values.filter (fun v => decide (0 < v))) /
        listMeanR (values.filter (fun v => decide (0 < v))) := by
  have hle := List.length_filter_le (fun v => decide (0 < v)) values
  have hv2 : ¬ values.length < 2 := by omega
  have hp2 : ¬ (values.filter (fun v => decide (0 < v))).length < 2 := by omega
  set pos := values.filter (fun v => decide (0 < v)) with hposdef
  have hpos : ∀ v ∈ pos, 0 < v := by
    intro v hv
    have := List.of_mem_filter hv
    simpa using this
  have hne : pos ≠ [] := by
    intro hnil
    rw [hnil] at h2
    simp at h2
  have hsum : 0 < pos.sum := List.sum_pos pos hpos hne
  have hlenq : (0 : ℚ) < (pos.length : ℚ) := by
    have h0 : 0 < pos.length := by omega
    exact_mod_cast h0
  have hmean : pos.sum / (pos.length : ℚ) ≠ 0 :=
    div_ne_zero (ne_of_gt hsum) (ne_of_gt hlenq)
  simp only [calculate_volatility, ← hposdef, if_neg hv2, if_neg hp2, if_neg hmean]
  rw [listMeanR_eq_cast, sampleStdR_eq_cast]

/-- C8: `calculate_volatility` is the coefficient of variation over the
strictly positive values with sample (n-1) standard deviation: it is `0.0`
whenever fewer than two positive values exist (in particular on `[]` and
`[5]`), `0.0` when the mean of the positive values is `0`, `0.0` on the
constant list `[10,10,10]`, approximately `0.527` on `[1,2,3,4,5]`
(distinguishing the `n-1` divisor from `n`, which would give `0.471`), and
in general `sampleStd(pos)/mean(pos)`. -/
theorem c8_volatility :
    (∀ values : List ℚ, (values.filter (fun v => decide (0 < v))).length < 2 →
        calculate_volatility values = 0)
  ∧ calculate_volatility [] = 0
  ∧ calculate_volatility [5] = 0
  ∧ calculate_volatility [10, 10, 10] = 0
  ∧ |calculate_volatility [1, 2, 3, 4, 5] - 0.527| < 1 / 1000
  ∧ (∀ values : List ℚ, listMeanR (values.filter (fun v => decide (0 < v))) = 0 →
        calculate_volatility values = 0)
  ∧ (∀ values : List ℚ, 2 ≤ (values.filter (fun v => decide (0 < v))).length →
        calculate_volatility values =
          sampleStdR (values.filter (fun v => decide (0 < v))) /
            listMeanR (values.filter (fun v => decide (0 < v)))) := by
  refine ⟨calculate_volatility_of_few_pos, by rfl, by rfl, ?_, ?_, ?_,
    calculate_volatility_eq_std_div_mean⟩
  · norm_num [calculate_volatility, List.filter_cons]
  · have hv : calculate_volatility [1, 2, 3, 4, 5] = Real.sqrt ((5 : ℝ) / 2) / 3 := by
      norm_num [calculate_volatility, List.filter_cons]
    rw [hv, abs_lt]
    have h0 : (0 : ℝ) ≤ 5 / 2 := by norm_num
    have hs := Real.sq_sqrt h0
    have hnn := Real.sqrt_nonneg ((5 : ℝ) / 2)
    constructor <;> nlinarith [hs, hnn]
  · intro values h
    by_cases hp : (values.filter (fun v => decide (0 < v))).length < 2
    · exact calculate_volatility_of_few_pos values hp
    · exfalso
      set pos := values.filter (fun v => decide (0 < v)) with hposdef
      have hpos : ∀ v ∈ pos, 0 < v := by
        intro v hv
        have := List.of_mem_filter hv
        simpa using this
      have hne : pos ≠ [] := by
        intro hnil
        rw [hnil] at hp
        simp at hp
      have hsum : 0 < pos.sum := List.sum_pos pos hpos hne
      have hlenq : (0 : ℚ) < (pos.length : ℚ) := by
        have h0 : 0 < pos.length := by omega
        exact_mod_cast h0
      rw [listMeanR_eq_cast] at h
      have hz : pos.sum / (pos.length : ℚ) = 0 := by exact_mod_cast h
      exact div_ne_zero (ne_of_gt hsum) (ne_of_gt hlenq) hz

/-- C8 witness: the no-data fallbacks, via the general theorem. -/
theorem c8_volatility_witness :
    calculate_volatility [5] = 0 ∧ calculate_volatility [0, -3] = 0 :=
  ⟨c8_volatility.1 [5] (by norm_num [List.filter_cons]),
   c8_volatility.1 [0, -3] (by norm_num [List.filter_cons])⟩

/-- Row widths of the assembled grid: the header and the 23 monthly rows
are `numMonths + 5` cells wide, the 7 summary rows are padded to
`max 11 (numMonths + 5)`, the spacer matches the header, and the 36
scoring rows are always 18 cells wide. -/
theorem rowLengths_buildGrid (n : ℤ) (dc : List Date) (ma : List MonthlyAgg) (a b : ℚ)
    (hma : ma.length = dc.length) :
    rowLengths (buildGrid n dc ma a b) =
      List.replicate 24 (dc.length + 5) ++ List.replicate 7 (max 11 (dc.length + 5)) ++
        [dc.length + 5] ++ List.replicate 36 18 := by
  have hhead : (headerRow dc).length = dc.length + 5 := by
    simp [headerRow]
  have hmonth : (monthlyRowsAll ma).map List.length = List.replicate 23 (dc.length + 5) := by
    rw [monthlyRowsAll, List.map_map]
    have h1 : ∀ k ∈ List.range 23,
        (List.length ∘ monthlyRow ma) k = (fun _ => dc.length + 5) k := by
      intro k _
      simp [monthlyRow, hma]
    rw [List.map_congr_left h1, List.map_const', List.length_range]
  have hS : ∀ cr db avg,
      ((summaryRows n cr db avg a b).map (padRow (dc.length + 5))).map List.length =
        List.replicate 7 (max 11 (dc.length + 5)) := by
    intro cr db avg
    rw [List.map_map]
    have h1 : ∀ r ∈ summaryRows n cr db avg a b,
        (List.length ∘ padRow (dc.length + 5)) r = (fun _ => max 11 (dc.length + 5)) r := by
      intro r hr
      have h11 : r.length = 11 := by
        fin_cases hr <;> rfl
      simp [padRow, h11]
      omega
    rw [List.map_congr_left h1, List.map_const']
    rfl
  have hSc : ∀ bc bd avg,
      ((scoringData bc bd avg).map padScoringRow).map List.length = List.replicate 36 18 := by
    intro bc bd avg
    rw [List.map_map]
    have h1 : ∀ r ∈ scoringData bc bd avg,
        (List.length ∘ padScoringRow) r = (fun _ => 18) r := by
      intro r hr
      fin_cases hr <;> rfl
    rw [List.map_congr_left h1, List.map_const']
    rfl
  simp only [buildGrid, rowLengths, List.map_cons, List.map_append, hhead]
  rw [hmonth, hS, hSc]
  simp [List.replicate_succ]

/-- C1 (amended): for `numMonths >= 1` the run succeeds and the grid has 68
rows whose widths are: header and the 23 monthly rows `1 + numMonths + 4`;
the 7 summary rows `max 11 (1 + numMonths + 4)` (their literal 11 cells,
padded only when the header is wider); the spacer `1 + numMonths + 4`; and
the 36 scoring rows always 18.  So the rows do *not* all share the header's
width (they do only when `numMonths = 13`); a uniform-width table arises
only when the final `pd.DataFrame` conversion pads the short rows. -/
theorem c1_row_widths (srt : List Transaction) (start : Date) (n : ℤ) (h : 1 ≤ n) :
    ∃ g, generate_stat_data srt start n = Except.ok g ∧
      rowLengths g =
        List.replicate 24 (n.toNat + 5) ++ List.replicate 7 (max 11 (n.toNat + 5)) ++
          [n.toNat + 5] ++ List.replicate 36 18 := by
  have hn : n ≠ 0 := by omega
  have hdc : ((pyRange n).map (fun i => addMonthsZ start i)).length = n.toNat := by
    simp [pyRange]
  simp only [generate_stat_data, pyDivByInt, if_neg hn]
  refine ⟨_, rfl, ?_⟩
  rw [rowLengths_buildGrid n _ _ _ _ (by simp), hdc]

/-- C1 witness: a two-month run over the empty ledger. -/
theorem c1_row_widths_witness :
    ∃ g, generate_stat_data [] ⟨2025, 2, 1⟩ 2 = Except.ok g ∧
      rowLengths g =
        List.replicate 24 ((2 : ℤ).toNat + 5) ++ List.replicate 7 (max 11 ((2 : ℤ).toNat + 5)) ++
          [(2 : ℤ).toNat + 5] ++ List.replicate 36 18 :=
  c1_row_widths [] ⟨2025, 2, 1⟩ 2 (by norm_num)

/-- C1 counterexample to the claim as stated: at `numMonths = 6` the header
has `1 + 6 + 4 = 11` cells but every scoring row has 18, so not every row
has the header's cell count.  (All 68 widths are pinned: 32 rows of 11,
then 36 rows of 18.) -/
theorem c1_counterexample :
    gridRowLengths (generate_stat_data [] ⟨2025, 2, 1⟩ 6) =
      Except.ok (List.replicate 32 11 ++ List.replicate 36 18)
  ∧ (18 : ℕ) ≠ 1 + 6 + 4 :=
  ⟨by with_unfolding_all rfl, by norm_num⟩

/-- C2 (amended): `generate_stat_data` performs no numMonths validation.
With `numMonths = 0` it fails, but with a `ZeroDivisionError` raised while
building the annualised summary row — after the monthly-aggregation phase,
not before any computation, and not an `InvalidConfiguration`.  With
`numMonths < 0` it does not fail at all: it returns a report whose monthly
columns are simply absent. -/
theorem c2_no_validation (srt : List Transaction) (start : Date) :
    generate_stat_data srt start 0 = Except.error "ZeroDivisionError: division by zero"
  ∧ (∀ n : ℤ, n < 0 → (generate_stat_data srt start n).isOk = true) := by
  constructor
  · simp [generate_stat_data, pyDivByInt]
  · intro n hn
    have hn0 : n ≠ 0 := by omega
    simp [generate_stat_data, pyDivByInt, hn0, Except.isOk, Except.toBool]

/-- C2 witness: the two behaviours at `numMonths = 0` and `numMonths = -3`. -/
theorem c2_no_validation_witness :
    generate_stat_data [] ⟨2025, 2, 1⟩ 0 = Except.error "ZeroDivisionError: division by zero"
  ∧ (generate_stat_data [] ⟨2025, 2, 1⟩ (-3)).isOk = true :=
  ⟨(c2_no_validation [] ⟨2025, 2, 1⟩).1, (c2_no_validation [] ⟨2025, 2, 1⟩).2 (-3) (by norm_num)⟩

/-- C2 counterexample to the claim as stated: `numMonths = -1 < 1`, yet the
run completes without any error, producing (partial-free but degenerate)
report output rather than surfacing an `InvalidConfiguration`. -/
theorem c2_counterexample : (generate_stat_data [] ⟨2025, 2, 1⟩ (-1)).isOk = true := by
  with_unfolding_all rfl
